import Mathlib

/-!
Shallow embedding of the survey-backend repository (src/database.py,
src/models.py, src/main.py): data model, request validation, the
transactional submission handler and the stats handler, with theorems
checking the specification's claims against this embedding.
-/

set_option autoImplicit false

namespace SurveyBackend

/-! ## JSON values

An untyped request body as received over HTTP, before pydantic
validation runs. -/

inductive Json where
  | null
  | bool (b : Bool)
  | int (n : Int)
  | str (s : String)
  | arr (elems : List Json)
  | obj (fields : List (String × Json))

/-- First binding of a key in a JSON object's field list. -/
def getField : List (String × Json) → String → Option Json
  | [], _ => none
  | p :: ps, k => if p.1 = k then some p.2 else getField ps k

/-- Remove every binding of a key from a JSON object's field list. -/
def eraseKey (k : String) : List (String × Json) → List (String × Json)
  | [] => []
  | p :: ps => if p.1 = k then eraseKey k ps else p :: eraseKey k ps

theorem getField_eraseKey_self (k : String) (l : List (String × Json)) :
    getField (eraseKey k l) k = none := by
  induction l with
  | nil => rfl
  | cons p ps ih =>
    by_cases h : p.1 = k
    · simp [eraseKey, h, ih]
    · simp [eraseKey, getField, h, ih]

theorem getField_eraseKey_ne (k k' : String) (l : List (String × Json))
    (h : k' ≠ k) : getField (eraseKey k l) k' = getField l k' := by
  induction l with
  | nil => rfl
  | cons p ps ih =>
    by_cases hp : p.1 = k
    · have hkk : ¬ k = k' := fun he => h he.symm
      simp [eraseKey, hp, getField, hkk, ih]
    · by_cases hp' : p.1 = k'
      · simp [eraseKey, hp, getField, hp', h]
      · simp [eraseKey, hp, getField, hp', h, ih]

theorem getField_cons_self (k : String) (v : Json) (l : List (String × Json)) :
    getField ((k, v) :: l) k = some v := by
  simp [getField]

theorem getField_cons_ne (k k' : String) (v : Json) (l : List (String × Json))
    (h : k ≠ k') : getField ((k, v) :: l) k' = getField l k' := by
  simp [getField, h]

/-! ## Validation layer (src/main.py lines 35-73)

The pydantic models `ConcernRatingData`, `FeatureImportanceData` and
`SurveySubmission` declare the required shape of the request body; a
body that is missing a declared field or binds it to a value of the
wrong declared type is rejected with a client-class validation error
before the endpoint function runs.  The parsers below are the
embedding of those declarations: one parser per model, one field reader
per declared field type. -/

/-- Individual concern rating (Q5): `concern_type: str`, `rating: int`. -/
structure ConcernRatingData where
  concern_type : String
  rating : Int
deriving DecidableEq, Repr

/-- Individual feature importance rating (Q6): `feature_type: str`, `rating: int`. -/
structure FeatureImportanceData where
  feature_type : String
  rating : Int
deriving DecidableEq, Repr

/-- Complete survey submission data: the validated form of a request body,
mirroring the fields of the pydantic `SurveySubmission` model. -/
structure SurveySubmission where
  q1_eligible : Bool
  q2_participation : Int
  q3_tech_comfort : Int
  experimental_group : String
  q4_willingness : Int
  concerns : List ConcernRatingData
  features : List FeatureImportanceData
  q7_data_usage : String
  q8_question_usage : String
  q9_retention_time : String
  q10_server_location : String
  q11_open_response : Option String
  q12_age : String
  q13_gender : String
  q14_canton : String
  q15_language : String
  q16_education : String
deriving DecidableEq, Repr

/-- Read a required `bool` field. -/
def reqBool (fields : List (String × Json)) (k : String) : Option Bool :=
  match getField fields k with
  | some (.bool b) => some b
  | _ => none

/-- Read a required `int` field. -/
def reqInt (fields : List (String × Json)) (k : String) : Option Int :=
  match getField fields k with
  | some (.int n) => some n
  | _ => none

/-- Read a required `str` field. -/
def reqStr (fields : List (String × Json)) (k : String) : Option String :=
  match getField fields k with
  | some (.str s) => some s
  | _ => none

/-- Read an `Optional[str] = None` field: absent and explicit `null` both
give `none`; a string gives `some`; any other value is a validation error. -/
def optStr (fields : List (String × Json)) (k : String) : Option (Option String) :=
  match getField fields k with
  | none => some none
  | some .null => some none
  | some (.str s) => some (some s)
  | some _ => none

/-- Validate every element of a list, failing if any element fails. -/
def parseAll {α : Type} (p : Json → Option α) : List Json → Option (List α)
  | [] => some []
  | x :: xs =>
    (p x).bind fun a =>
    (parseAll p xs).bind fun as =>
    some (a :: as)

/-- Read a required list field whose elements are validated by `p`. -/
def reqList {α : Type} (fields : List (String × Json)) (k : String)
    (p : Json → Option α) : Option (List α) :=
  match getField fields k with
  | some (.arr xs) => parseAll p xs
  | _ => none

/-- Validation of one concern entry against `ConcernRatingData`. -/
def parseConcern : Json → Option ConcernRatingData
  | .obj fields =>
    (reqStr fields "concern_type").bind fun t =>
    (reqInt fields "rating").bind fun r =>
    some { concern_type := t, rating := r }
  | _ => none

/-- Validation of one feature entry against `FeatureImportanceData`. -/
def parseFeature : Json → Option FeatureImportanceData
  | .obj fields =>
    (reqStr fields "feature_type").bind fun t =>
    (reqInt fields "rating").bind fun r =>
    some { feature_type := t, rating := r }
  | _ => none

/-- Validation of a whole request body against `SurveySubmission`. -/
def parseSubmission : Json → Option SurveySubmission
  | .obj fields =>
    (reqBool fields "q1_eligible").bind fun q1 =>
    (reqInt fields "q2_participation").bind fun q2 =>
    (reqInt fields "q3_tech_comfort").bind fun q3 =>
    (reqStr fields "experimental_group").bind fun eg =>
    (reqInt fields "q4_willingness").bind fun q4 =>
    (reqList fields "concerns" parseConcern).bind fun cs =>
    (reqList fields "features" parseFeature).bind fun fs =>
    (reqStr fields "q7_data_usage").bind fun q7 =>
    (reqStr fields "q8_question_usage").bind fun q8 =>
    (reqStr fields "q9_retention_time").bind fun q9 =>
    (reqStr fields "q10_server_location").bind fun q10 =>
    (optStr fields "q11_open_response").bind fun q11 =>
    (reqStr fields "q12_age").bind fun q12 =>
    (reqStr fields "q13_gender").bind fun q13 =>
    (reqStr fields "q14_canton").bind fun q14 =>
    (reqStr fields "q15_language").bind fun q15 =>
    (reqStr fields "q16_education").bind fun q16 =>
    some { q1_eligible := q1, q2_participation := q2, q3_tech_comfort := q3,
           experimental_group := eg, q4_willingness := q4,
           concerns := cs, features := fs,
           q7_data_usage := q7, q8_question_usage := q8,
           q9_retention_time := q9, q10_server_location := q10,
           q11_open_response := q11,
           q12_age := q12, q13_gender := q13, q14_canton := q14,
           q15_language := q15, q16_education := q16 }
  | _ => none

/-- The required fields of `SurveySubmission` (every declared field except
the optional `q11_open_response`). -/
def requiredFields : List String :=
  ["q1_eligible", "q2_participation", "q3_tech_comfort",
   "experimental_group", "q4_willingness", "concerns", "features",
   "q7_data_usage", "q8_question_usage", "q9_retention_time",
   "q10_server_location", "q12_age", "q13_gender", "q14_canton",
   "q15_language", "q16_education"]

/-- All declared fields of `SurveySubmission`, the optional one included. -/
def submissionFields : List String :=
  requiredFields ++ ["q11_open_response"]

/-- Is this JSON value a boolean? -/
def Json.isBool : Json → Bool
  | .bool _ => true
  | _ => false

/-- Is this JSON value an integer? -/
def Json.isInt : Json → Bool
  | .int _ => true
  | _ => false

/-- Is this JSON value a string? -/
def Json.isStr : Json → Bool
  | .str _ => true
  | _ => false

/-- Is this JSON value `null` or a string (the shapes the optional
`q11_open_response` accepts when present)? -/
def Json.isNullOrStr : Json → Bool
  | .null => true
  | .str _ => true
  | _ => false

/-- Is this JSON value an array whose every element validates as a
`ConcernRatingData`? -/
def concernArrayOk : Json → Bool
  | .arr xs => xs.all fun x => (parseConcern x).isSome
  | _ => false

/-- Is this JSON value an array whose every element validates as a
`FeatureImportanceData`? -/
def featureArrayOk : Json → Bool
  | .arr xs => xs.all fun x => (parseFeature x).isSome
  | _ => false

/-- The type each declared field of `SurveySubmission` accepts, read off
the pydantic annotations: `bool`, `int` and `str` fields accept exactly
that JSON type, the two list fields accept arrays whose every element
validates, and the optional `q11_open_response` accepts `null` or a
string (absence is handled by `optStr`). -/
def fieldTypeOk (k : String) (v : Json) : Bool :=
  if k = "q1_eligible" then v.isBool
  else if k = "q2_participation" then v.isInt
  else if k = "q3_tech_comfort" then v.isInt
  else if k = "experimental_group" then v.isStr
  else if k = "q4_willingness" then v.isInt
  else if k = "concerns" then concernArrayOk v
  else if k = "features" then featureArrayOk v
  else if k = "q7_data_usage" then v.isStr
  else if k = "q8_question_usage" then v.isStr
  else if k = "q9_retention_time" then v.isStr
  else if k = "q10_server_location" then v.isStr
  else if k = "q11_open_response" then v.isNullOrStr
  else if k = "q12_age" then v.isStr
  else if k = "q13_gender" then v.isStr
  else if k = "q14_canton" then v.isStr
  else if k = "q15_language" then v.isStr
  else if k = "q16_education" then v.isStr
  else false

/-! ## Storage model (src/models.py)

One Lean structure per SQLAlchemy table row, and a `DB` structure
holding the three tables.  Generated integer identifiers are modelled
by per-table counters: the next `INSERT` into a table receives that
table's counter value as its primary key. -/

/-- One row of the `survey_responses` table. -/
structure ResponseRow where
  id : Nat
  created_at : Nat
  q1_eligible : Bool
  q2_participation : Int
  q3_tech_comfort : Int
  experimental_group : String
  q4_willingness : Int
  q7_data_usage : String
  q8_question_usage : String
  q9_retention_time : String
  q10_server_location : String
  q11_open_response : Option String
  q12_age : String
  q13_gender : String
  q14_canton : String
  q15_language : String
  q16_education : String
deriving DecidableEq, Repr

/-- One row of the `concern_ratings` table. -/
structure ConcernRow where
  id : Nat
  response_id : Nat
  concern_type : String
  rating : Int
deriving DecidableEq, Repr

/-- One row of the `feature_importance` table. -/
structure FeatureRow where
  id : Nat
  response_id : Nat
  feature_type : String
  rating : Int
deriving DecidableEq, Repr

/-- The persistent database state: the three tables plus the id
generators backing each table's integer primary key. -/
structure DB where
  survey_responses : List ResponseRow
  concern_ratings : List ConcernRow
  feature_importance : List FeatureRow
  nextResponseId : Nat
  nextConcernId : Nat
  nextFeatureId : Nat
deriving DecidableEq, Repr

/-- An empty database with id generators starting at 1 (PostgreSQL
serial columns start at 1). -/
def DB.empty : DB :=
  { survey_responses := [], concern_ratings := [], feature_importance := [],
    nextResponseId := 1, nextConcernId := 1, nextFeatureId := 1 }

/-! ## Session model (src/database.py)

`get_db` hands each request a fresh `SessionLocal()` session and closes
it in a `finally` block.  A session wraps the database state together
with the state of its transaction (`inTransaction`: work has begun and
is neither committed nor rolled back) and whether `close()` has run. -/

/-- A per-request SQLAlchemy session. -/
structure Session where
  db : DB
  inTransaction : Bool
  closed : Bool
deriving DecidableEq, Repr

/-- A fresh open session over the given database (`SessionLocal()`). -/
def SessionLocal (db : DB) : Session :=
  { db := db, inTransaction := false, closed := false }

/-- Closing the session (`db.close()` in `get_db`'s `finally` block). -/
def Session.close (s : Session) : Session :=
  { s with closed := true }

/-- The `get_db` dependency: create a session, hand it to the endpoint
body, and close it on every exit path (`try`/`finally`). -/
def get_db {β : Type} (endpoint : Session → β × Session) (db : DB) :
    β × Session :=
  let s := SessionLocal db
  let r := endpoint s
  (r.1, r.2.close)

/-! ## Fault model

The endpoint's `try` block may fail at any database operation; an
injected `Fault` names the operation that raises and the exception
message.  `noFault` is the normal run. -/

inductive Fault where
  | noFault
  | onFlush (msg : String)
  | onAddChild (k : Nat) (msg : String)
  | onCommit (msg : String)
deriving DecidableEq, Repr

/-- The exception message a fault raises (unused for `noFault`). -/
def Fault.msg : Fault → String
  | .noFault => ""
  | .onFlush m => m
  | .onAddChild _ m => m
  | .onCommit m => m

/-- Whether a fault actually fires on a submission staging `n` child
rows: `onAddChild k` only fires if a `k`-th child insert happens. -/
def Fault.fires (f : Fault) (n : Nat) : Bool :=
  match f with
  | .noFault => false
  | .onFlush _ => true
  | .onAddChild k _ => decide (k < n)
  | .onCommit _ => true

/-! ## Submission handler (src/main.py lines 86-151) -/

/-- HTTP error response (`HTTPException` / validation rejection). -/
structure HTTPError where
  status_code : Nat
  detail : String
deriving DecidableEq, Repr

/-- Successful response body of `POST /api/submit`. -/
structure SubmitResult where
  status : String
  message : String
  response_id : Nat
deriving DecidableEq, Repr

/-- The `SurveyResponse(...)` constructor call of `submit_survey`
(src/main.py lines 97-113): builds the parent row from the submission's
scalar fields, with the flushed id and the `created_at` default. -/
def buildParent (s : SurveySubmission) (id now : Nat) : ResponseRow :=
  { id := id, created_at := now,
    q1_eligible := s.q1_eligible,
    q2_participation := s.q2_participation,
    q3_tech_comfort := s.q3_tech_comfort,
    experimental_group := s.experimental_group,
    q4_willingness := s.q4_willingness,
    q7_data_usage := s.q7_data_usage,
    q8_question_usage := s.q8_question_usage,
    q9_retention_time := s.q9_retention_time,
    q10_server_location := s.q10_server_location,
    q11_open_response := s.q11_open_response,
    q12_age := s.q12_age,
    q13_gender := s.q13_gender,
    q14_canton := s.q14_canton,
    q15_language := s.q15_language,
    q16_education := s.q16_education }

/-- The `ConcernRating(...)` loop: one child row per concern entry,
carrying the flushed parent id, with ids drawn from the table's
generator. -/
def stageConcerns (rid : Nat) : Nat → List ConcernRatingData → List ConcernRow
  | _, [] => []
  | nextId, c :: cs =>
    { id := nextId, response_id := rid,
      concern_type := c.concern_type, rating := c.rating }
      :: stageConcerns rid (nextId + 1) cs

/-- The `FeatureImportance(...)` loop: one child row per feature entry,
carrying the flushed parent id. -/
def stageFeatures (rid : Nat) : Nat → List FeatureImportanceData → List FeatureRow
  | _, [] => []
  | nextId, f :: fs =>
    { id := nextId, response_id := rid,
      feature_type := f.feature_type, rating := f.rating }
      :: stageFeatures rid (nextId + 1) fs

/-- The database state `db.commit()` publishes for a submission: the
parent row built from the submission's scalar fields with the flushed
id `db.nextResponseId`, one `ConcernRating` child row per concern entry
and one `FeatureImportance` child row per feature entry, every child
carrying the flushed parent id as its foreign key. -/
def commitDB (s : SurveySubmission) (now : Nat) (db : DB) : DB :=
  { survey_responses :=
      db.survey_responses ++ [buildParent s db.nextResponseId now],
    concern_ratings :=
      db.concern_ratings
        ++ stageConcerns db.nextResponseId db.nextConcernId s.concerns,
    feature_importance :=
      db.feature_importance
        ++ stageFeatures db.nextResponseId db.nextFeatureId s.features,
    nextResponseId := db.nextResponseId + 1,
    nextConcernId := db.nextConcernId + s.concerns.length,
    nextFeatureId := db.nextFeatureId + s.features.length }

/-- The body of `submit_survey`'s `try` block (build parent, `flush` to
obtain its id, stage one child row per concern and feature entry,
`commit`), indexed by where the injected fault raises: a `flush`,
child-insert or `commit` fault raises its exception message before the
commit publishes anything (an `onAddChild k` fault only exists if a
`k`-th child insert happens); an absent or non-firing fault commits
every staged row atomically and returns the flushed parent id. -/
def submitTry (s : SurveySubmission) : Fault → Nat → DB → Except String (Nat × DB)
  | .noFault, now, db => .ok (db.nextResponseId, commitDB s now db)
  | .onFlush msg, _, _ => .error msg
  | .onAddChild k msg, now, db =>
    if k < s.concerns.length + s.features.length then .error msg
    else .ok (db.nextResponseId, commitDB s now db)
  | .onCommit msg, _, _ => .error msg

/-- The `submit_survey` endpoint over a validated submission: run the
`try` block inside a transaction; on success return the flushed id as
`response_id` after `db.commit()`, on any exception `db.rollback()` and
raise `HTTPException(500, "Database error: ...")`.  Both exits leave no
transaction open. -/
def submit_survey (s : SurveySubmission) (fault : Fault) (now : Nat)
    (sess : Session) : Except HTTPError SubmitResult × Session :=
  let sess := { sess with inTransaction := true }
  match submitTry s fault now sess.db with
  | .ok (rid, db') =>
    (.ok { status := "success", message := "Survey response recorded",
           response_id := rid },
     { sess with db := db', inTransaction := false })
  | .error msg =>
    (.error { status_code := 500, detail := "Database error: " ++ msg },
     { sess with inTransaction := false })

/-- The FastAPI 422 response produced when request-body validation
fails before the endpoint function is entered. -/
def validationError : HTTPError :=
  { status_code := 422, detail := "Unprocessable Entity" }

/-- The `POST /api/submit` endpoint as seen from the outside: FastAPI validates the
raw body against `SurveySubmission` first; only a body that validates
reaches `submit_survey`. -/
def post_api_submit (body : Json) (fault : Fault) (now : Nat)
    (sess : Session) : Except HTTPError SubmitResult × Session :=
  match parseSubmission body with
  | none => (.error validationError, sess)
  | some s => submit_survey s fault now sess

/-- Response body of `GET /api/stats`. -/
structure StatsResult where
  total_responses : Nat
  timestamp : Nat
deriving DecidableEq, Repr

/-- The `get_stats` endpoint (src/main.py lines 155-162): count the
parent rows and return the count with a timestamp. -/
def get_stats (now : Nat) (sess : Session) : StatsResult × Session :=
  ({ total_responses := sess.db.survey_responses.length, timestamp := now },
   sess)

/-! ## Basic lemmas about the embedding -/

theorem stageConcerns_map (rid nextId : Nat) (cs : List ConcernRatingData) :
    (stageConcerns rid nextId cs).map
        (fun r => (r.response_id, r.concern_type, r.rating))
      = cs.map (fun c => (rid, c.concern_type, c.rating)) := by
  induction cs generalizing nextId with
  | nil => rfl
  | cons c cs ih => simp [stageConcerns, ih]

theorem stageFeatures_map (rid nextId : Nat) (fs : List FeatureImportanceData) :
    (stageFeatures rid nextId fs).map
        (fun r => (r.response_id, r.feature_type, r.rating))
      = fs.map (fun f => (rid, f.feature_type, f.rating)) := by
  induction fs generalizing nextId with
  | nil => rfl
  | cons f fs ih => simp [stageFeatures, ih]

theorem stageConcerns_length (rid nextId : Nat) (cs : List ConcernRatingData) :
    (stageConcerns rid nextId cs).length = cs.length := by
  have := stageConcerns_map rid nextId cs
  simpa using congrArg List.length this

theorem stageFeatures_length (rid nextId : Nat) (fs : List FeatureImportanceData) :
    (stageFeatures rid nextId fs).length = fs.length := by
  have := stageFeatures_map rid nextId fs
  simpa using congrArg List.length this

theorem parseAll_isSome_of_mem {α : Type} (p : Json → Option α)
    {xs : List Json} {ys : List α} (h : parseAll p xs = some ys) :
    ∀ x ∈ xs, (p x).isSome := by
  induction xs generalizing ys with
  | nil => intro x hx; cases hx
  | cons x xs ih =>
    simp only [parseAll, Option.bind_eq_some] at h
    obtain ⟨a, ha, as, has, _⟩ := h
    intro y hy
    rcases hy with _ | hy
    · simp [ha]
    · exact ih has y (by assumption)

theorem reqBool_getField {fields : List (String × Json)} {k : String} {b : Bool}
    (h : reqBool fields k = some b) : getField fields k = some (.bool b) := by
  unfold reqBool at h
  split at h
  · rename_i heq
    cases h
    exact heq
  · cases h

theorem reqInt_getField {fields : List (String × Json)} {k : String} {n : Int}
    (h : reqInt fields k = some n) : getField fields k = some (.int n) := by
  unfold reqInt at h
  split at h
  · rename_i heq
    cases h
    exact heq
  · cases h

theorem reqStr_getField {fields : List (String × Json)} {k : String} {v : String}
    (h : reqStr fields k = some v) : getField fields k = some (.str v) := by
  unfold reqStr at h
  split at h
  · rename_i heq
    cases h
    exact heq
  · cases h

theorem reqList_getField {α : Type} {fields : List (String × Json)} {k : String}
    {p : Json → Option α} {ys : List α} (h : reqList fields k p = some ys) :
    ∃ xs, getField fields k = some (.arr xs) ∧ parseAll p xs = some ys := by
  unfold reqList at h
  split at h
  · rename_i xs heq
    exact ⟨xs, heq, h⟩
  · cases h

theorem optStr_getField {fields : List (String × Json)} {k : String}
    {o : Option String} (h : optStr fields k = some o) {v : Json}
    (hv : getField fields k = some v) :
    v = .null ∨ ∃ t, v = .str t := by
  unfold optStr at h
  split at h <;> rename_i heq
  · rw [heq] at hv; cases hv
  · rw [heq] at hv; cases hv; exact Or.inl rfl
  · rename_i t; rw [heq] at hv; cases hv; exact Or.inr ⟨t, rfl⟩
  · cases h

/-- Elimination for a successful validation: every field reader
succeeded and produced the corresponding field of the result. -/
theorem parseSubmission_obj_elim {fields : List (String × Json)}
    {s : SurveySubmission} (h : parseSubmission (.obj fields) = some s) :
    reqBool fields "q1_eligible" = some s.q1_eligible ∧
    reqInt fields "q2_participation" = some s.q2_participation ∧
    reqInt fields "q3_tech_comfort" = some s.q3_tech_comfort ∧
    reqStr fields "experimental_group" = some s.experimental_group ∧
    reqInt fields "q4_willingness" = some s.q4_willingness ∧
    reqList fields "concerns" parseConcern = some s.concerns ∧
    reqList fields "features" parseFeature = some s.features ∧
    reqStr fields "q7_data_usage" = some s.q7_data_usage ∧
    reqStr fields "q8_question_usage" = some s.q8_question_usage ∧
    reqStr fields "q9_retention_time" = some s.q9_retention_time ∧
    reqStr fields "q10_server_location" = some s.q10_server_location ∧
    optStr fields "q11_open_response" = some s.q11_open_response ∧
    reqStr fields "q12_age" = some s.q12_age ∧
    reqStr fields "q13_gender" = some s.q13_gender ∧
    reqStr fields "q14_canton" = some s.q14_canton ∧
    reqStr fields "q15_language" = some s.q15_language ∧
    reqStr fields "q16_education" = some s.q16_education := by
  unfold parseSubmission at h
  obtain ⟨q1, h1, h⟩ := Option.bind_eq_some.mp h
  obtain ⟨q2, h2, h⟩ := Option.bind_eq_some.mp h
  obtain ⟨q3, h3, h⟩ := Option.bind_eq_some.mp h
  obtain ⟨eg, h4, h⟩ := Option.bind_eq_some.mp h
  obtain ⟨q4, h5, h⟩ := Option.bind_eq_some.mp h
  obtain ⟨cs, h6, h⟩ := Option.bind_eq_some.mp h
  obtain ⟨fs, h7, h⟩ := Option.bind_eq_some.mp h
  obtain ⟨q7, h8, h⟩ := Option.bind_eq_some.mp h
  obtain ⟨q8, h9, h⟩ := Option.bind_eq_some.mp h
  obtain ⟨q9, h10, h⟩ := Option.bind_eq_some.mp h
  obtain ⟨q10, h11, h⟩ := Option.bind_eq_some.mp h
  obtain ⟨q11, h12, h⟩ := Option.bind_eq_some.mp h
  obtain ⟨q12, h13, h⟩ := Option.bind_eq_some.mp h
  obtain ⟨q13, h14, h⟩ := Option.bind_eq_some.mp h
  obtain ⟨q14, h15, h⟩ := Option.bind_eq_some.mp h
  obtain ⟨q15, h16, h⟩ := Option.bind_eq_some.mp h
  obtain ⟨q16, h17, h⟩ := Option.bind_eq_some.mp h
  injection h with hs
  subst hs
  exact ⟨h1, h2, h3, h4, h5, h6, h7, h8, h9, h10, h11, h12, h13, h14, h15,
         h16, h17⟩

/-- Introduction for validation: if every field reader succeeds with the
corresponding field of `s`, the whole body validates to `s`. -/
theorem parseSubmission_obj_intro {fields : List (String × Json)}
    {s : SurveySubmission}
    (h1 : reqBool fields "q1_eligible" = some s.q1_eligible)
    (h2 : reqInt fields "q2_participation" = some s.q2_participation)
    (h3 : reqInt fields "q3_tech_comfort" = some s.q3_tech_comfort)
    (h4 : reqStr fields "experimental_group" = some s.experimental_group)
    (h5 : reqInt fields "q4_willingness" = some s.q4_willingness)
    (h6 : reqList fields "concerns" parseConcern = some s.concerns)
    (h7 : reqList fields "features" parseFeature = some s.features)
    (h8 : reqStr fields "q7_data_usage" = some s.q7_data_usage)
    (h9 : reqStr fields "q8_question_usage" = some s.q8_question_usage)
    (h10 : reqStr fields "q9_retention_time" = some s.q9_retention_time)
    (h11 : reqStr fields "q10_server_location" = some s.q10_server_location)
    (h12 : optStr fields "q11_open_response" = some s.q11_open_response)
    (h13 : reqStr fields "q12_age" = some s.q12_age)
    (h14 : reqStr fields "q13_gender" = some s.q13_gender)
    (h15 : reqStr fields "q14_canton" = some s.q14_canton)
    (h16 : reqStr fields "q15_language" = some s.q15_language)
    (h17 : reqStr fields "q16_education" = some s.q16_education) :
    parseSubmission (.obj fields) = some s := by
  unfold parseSubmission
  refine Option.bind_eq_some.mpr ⟨_, h1, ?_⟩
  refine Option.bind_eq_some.mpr ⟨_, h2, ?_⟩
  refine Option.bind_eq_some.mpr ⟨_, h3, ?_⟩
  refine Option.bind_eq_some.mpr ⟨_, h4, ?_⟩
  refine Option.bind_eq_some.mpr ⟨_, h5, ?_⟩
  refine Option.bind_eq_some.mpr ⟨_, h6, ?_⟩
  refine Option.bind_eq_some.mpr ⟨_, h7, ?_⟩
  refine Option.bind_eq_some.mpr ⟨_, h8, ?_⟩
  refine Option.bind_eq_some.mpr ⟨_, h9, ?_⟩
  refine Option.bind_eq_some.mpr ⟨_, h10, ?_⟩
  refine Option.bind_eq_some.mpr ⟨_, h11, ?_⟩
  refine Option.bind_eq_some.mpr ⟨_, h12, ?_⟩
  refine Option.bind_eq_some.mpr ⟨_, h13, ?_⟩
  refine Option.bind_eq_some.mpr ⟨_, h14, ?_⟩
  refine Option.bind_eq_some.mpr ⟨_, h15, ?_⟩
  refine Option.bind_eq_some.mpr ⟨_, h16, ?_⟩
  refine Option.bind_eq_some.mpr ⟨_, h17, ?_⟩
  rfl

/-! ## Transport lemmas: field readers only look at their own key -/

theorem reqBool_ext {fields fields' : List (String × Json)} {k : String}
    (h : getField fields k = getField fields' k) :
    reqBool fields k = reqBool fields' k := by
  unfold reqBool; rw [h]

theorem reqInt_ext {fields fields' : List (String × Json)} {k : String}
    (h : getField fields k = getField fields' k) :
    reqInt fields k = reqInt fields' k := by
  unfold reqInt; rw [h]

theorem reqStr_ext {fields fields' : List (String × Json)} {k : String}
    (h : getField fields k = getField fields' k) :
    reqStr fields k = reqStr fields' k := by
  unfold reqStr; rw [h]

theorem reqList_ext {α : Type} {fields fields' : List (String × Json)}
    {k : String} {p : Json → Option α}
    (h : getField fields k = getField fields' k) :
    reqList fields k p = reqList fields' k p := by
  unfold reqList; rw [h]

theorem optStr_ext {fields fields' : List (String × Json)} {k : String}
    (h : getField fields k = getField fields' k) :
    optStr fields k = optStr fields' k := by
  unfold optStr; rw [h]

theorem optStr_of_getField_none {fields : List (String × Json)} {k : String}
    (h : getField fields k = none) : optStr fields k = some none := by
  simp [optStr, h]

theorem optStr_of_getField_null {fields : List (String × Json)} {k : String}
    (h : getField fields k = some .null) : optStr fields k = some none := by
  simp [optStr, h]

/-- A successful validation implies that every required field was
present in the body. -/
theorem parseSubmission_required_isSome {fields : List (String × Json)}
    {s : SurveySubmission} (h : parseSubmission (.obj fields) = some s) :
    ∀ k ∈ requiredFields, (getField fields k).isSome := by
  obtain ⟨H1, H2, H3, H4, H5, H6, H7, H8, H9, H10, H11, H12, H13, H14, H15,
          H16, H17⟩ := parseSubmission_obj_elim h
  intro k hk
  simp only [requiredFields, List.mem_cons, List.not_mem_nil, or_false] at hk
  rcases hk with rfl | rfl | rfl | rfl | rfl | rfl | rfl | rfl | rfl | rfl |
    rfl | rfl | rfl | rfl | rfl | rfl
  · rw [reqBool_getField H1]; rfl
  · rw [reqInt_getField H2]; rfl
  · rw [reqInt_getField H3]; rfl
  · rw [reqStr_getField H4]; rfl
  · rw [reqInt_getField H5]; rfl
  · obtain ⟨xs, hx, -⟩ := reqList_getField H6; rw [hx]; rfl
  · obtain ⟨xs, hx, -⟩ := reqList_getField H7; rw [hx]; rfl
  · rw [reqStr_getField H8]; rfl
  · rw [reqStr_getField H9]; rfl
  · rw [reqStr_getField H10]; rfl
  · rw [reqStr_getField H11]; rfl
  · rw [reqStr_getField H13]; rfl
  · rw [reqStr_getField H14]; rfl
  · rw [reqStr_getField H15]; rfl
  · rw [reqStr_getField H16]; rfl
  · rw [reqStr_getField H17]; rfl

/-- A successful validation implies that every declared field that was
present in the body had an accepted type. -/
theorem parseSubmission_types_ok {fields : List (String × Json)}
    {s : SurveySubmission} (h : parseSubmission (.obj fields) = some s) :
    ∀ k ∈ submissionFields, ∀ v, getField fields k = some v →
      fieldTypeOk k v = true := by
  obtain ⟨H1, H2, H3, H4, H5, H6, H7, H8, H9, H10, H11, H12, H13, H14, H15,
          H16, H17⟩ := parseSubmission_obj_elim h
  intro k hk v hv
  simp only [submissionFields, requiredFields, List.mem_append, List.mem_cons,
             List.not_mem_nil, or_false, List.mem_singleton] at hk
  rcases hk with (rfl | rfl | rfl | rfl | rfl | rfl | rfl | rfl | rfl | rfl |
    rfl | rfl | rfl | rfl | rfl | rfl) | rfl
  · rw [reqBool_getField H1] at hv; cases hv; simp [fieldTypeOk, Json.isBool]
  · rw [reqInt_getField H2] at hv; cases hv; simp [fieldTypeOk, Json.isInt]
  · rw [reqInt_getField H3] at hv; cases hv; simp [fieldTypeOk, Json.isInt]
  · rw [reqStr_getField H4] at hv; cases hv; simp [fieldTypeOk, Json.isStr]
  · rw [reqInt_getField H5] at hv; cases hv; simp [fieldTypeOk, Json.isInt]
  · obtain ⟨xs, hx, hall⟩ := reqList_getField H6
    rw [hx] at hv; cases hv
    simp [fieldTypeOk, concernArrayOk, List.all_eq_true]
    exact parseAll_isSome_of_mem _ hall
  · obtain ⟨xs, hx, hall⟩ := reqList_getField H7
    rw [hx] at hv; cases hv
    simp [fieldTypeOk, featureArrayOk, List.all_eq_true]
    exact parseAll_isSome_of_mem _ hall
  · rw [reqStr_getField H8] at hv; cases hv; simp [fieldTypeOk, Json.isStr]
  · rw [reqStr_getField H9] at hv; cases hv; simp [fieldTypeOk, Json.isStr]
  · rw [reqStr_getField H10] at hv; cases hv; simp [fieldTypeOk, Json.isStr]
  · rw [reqStr_getField H11] at hv; cases hv; simp [fieldTypeOk, Json.isStr]
  · rw [reqStr_getField H13] at hv; cases hv; simp [fieldTypeOk, Json.isStr]
  · rw [reqStr_getField H14] at hv; cases hv; simp [fieldTypeOk, Json.isStr]
  · rw [reqStr_getField H15] at hv; cases hv; simp [fieldTypeOk, Json.isStr]
  · rw [reqStr_getField H16] at hv; cases hv; simp [fieldTypeOk, Json.isStr]
  · rw [reqStr_getField H17] at hv; cases hv; simp [fieldTypeOk, Json.isStr]
  · rcases optStr_getField H12 hv with rfl | ⟨t, rfl⟩ <;>
      simp [fieldTypeOk, Json.isNullOrStr]

/-! ## Evaluation lemmas for the submission handler -/

theorem submitTry_ok_elim {s : SurveySubmission} {fault : Fault} {now : Nat}
    {db : DB} {rid : Nat} {db' : DB}
    (h : submitTry s fault now db = .ok (rid, db')) :
    rid = db.nextResponseId ∧ db' = commitDB s now db := by
  cases fault with
  | noFault =>
    simp only [submitTry] at h
    injection h with h
    exact ⟨congrArg Prod.fst h.symm, congrArg Prod.snd h.symm⟩
  | onFlush msg => simp [submitTry] at h
  | onAddChild k msg =>
    simp only [submitTry] at h
    split at h
    · cases h
    · injection h with h
      exact ⟨congrArg Prod.fst h.symm, congrArg Prod.snd h.symm⟩
  | onCommit msg => simp [submitTry] at h

theorem submit_survey_noFault (s : SurveySubmission) (now : Nat)
    (sess : Session) :
    submit_survey s .noFault now sess =
      (.ok { status := "success", message := "Survey response recorded",
             response_id := sess.db.nextResponseId },
       { sess with db := commitDB s now sess.db, inTransaction := false }) :=
  rfl

/-- Either the whole transaction commits and `submit_survey` succeeds,
or it raises: then the session's database is exactly the one the
request started with (full rollback) and the caller gets a 500 carrying
the failure cause. -/
theorem submit_survey_cases (s : SurveySubmission) (fault : Fault) (now : Nat)
    (sess : Session) :
    (submit_survey s fault now sess =
       (.ok { status := "success", message := "Survey response recorded",
              response_id := sess.db.nextResponseId },
        { sess with db := commitDB s now sess.db, inTransaction := false })) ∨
    (∃ msg, submit_survey s fault now sess =
       (.error { status_code := 500, detail := "Database error: " ++ msg },
        { sess with inTransaction := false })) := by
  cases hm : submitTry s fault now sess.db with
  | ok v =>
    obtain ⟨rid, db'⟩ := v
    obtain ⟨h1, h2⟩ := submitTry_ok_elim hm
    subst h1; subst h2
    left
    show (match submitTry s fault now sess.db with
          | .ok (rid, db') => _
          | .error msg => _) = _
    rw [hm]
  | error msg =>
    right
    exact ⟨msg, by
      show (match submitTry s fault now sess.db with
            | .ok (rid, db') => _
            | .error msg => _) = _
      rw [hm]⟩

theorem drop_length_append {α : Type} (l l' : List α) :
    (l ++ l').drop l.length = l' := by
  induction l with
  | nil => rfl
  | cons x xs ih => simp

theorem getLast?_append_singleton {α : Type} (l : List α) (a : α) :
    (l ++ [a]).getLast? = some a := by
  induction l with
  | nil => rfl
  | cons x xs ih =>
    cases xs with
    | nil => rfl
    | cons y ys =>
      simp only [List.cons_append] at ih ⊢
      rw [List.getLast?_cons_cons]
      exact ih

/-! ## Example data

The concrete scenario payload used by the specification, both as a raw
JSON body and as its validated form. -/

/-- The raw fields of the concrete scenario body, with the optional
`q11_open_response` bound to a string. -/
def exampleFields : List (String × Json) :=
  [("q1_eligible", .bool true), ("q2_participation", .int 3),
   ("q3_tech_comfort", .int 4), ("experimental_group", .str "group2"),
   ("q4_willingness", .int 5),
   ("concerns", .arr [.obj [("concern_type", .str "privacy"),
                            ("rating", .int 4)]]),
   ("features", .arr [.obj [("feature_type", .str "anonymization"),
                            ("rating", .int 5)]]),
   ("q7_data_usage", .str "researchers_only"),
   ("q8_question_usage", .str "aggregate"),
   ("q9_retention_time", .str "1_year"),
   ("q10_server_location", .str "switzerland"),
   ("q11_open_response", .str "test"),
   ("q12_age", .str "25-34"), ("q13_gender", .str "female"),
   ("q14_canton", .str "ZH"), ("q15_language", .str "de"),
   ("q16_education", .str "bachelor")]

/-- The validated form of `exampleFields`. -/
def exampleSubmission : SurveySubmission :=
  { q1_eligible := true, q2_participation := 3, q3_tech_comfort := 4,
    experimental_group := "group2", q4_willingness := 5,
    concerns := [{ concern_type := "privacy", rating := 4 }],
    features := [{ feature_type := "anonymization", rating := 5 }],
    q7_data_usage := "researchers_only", q8_question_usage := "aggregate",
    q9_retention_time := "1_year", q10_server_location := "switzerland",
    q11_open_response := some "test",
    q12_age := "25-34", q13_gender := "female", q14_canton := "ZH",
    q15_language := "de", q16_education := "bachelor" }

theorem exampleFields_parse :
    parseSubmission (.obj exampleFields) = some exampleSubmission := by
  decide

theorem stageConcerns_map_entry (rid nextId : Nat)
    (cs : List ConcernRatingData) :
    (stageConcerns rid nextId cs).map (fun c => (c.concern_type, c.rating))
      = cs.map (fun c => (c.concern_type, c.rating)) := by
  induction cs generalizing nextId with
  | nil => rfl
  | cons c cs ih => simp [stageConcerns, ih]

theorem stageFeatures_map_entry (rid nextId : Nat)
    (fs : List FeatureImportanceData) :
    (stageFeatures rid nextId fs).map (fun f => (f.feature_type, f.rating))
      = fs.map (fun f => (f.feature_type, f.rating)) := by
  induction fs generalizing nextId with
  | nil => rfl
  | cons f fs ih => simp [stageFeatures, ih]

/-! ## Claim theorems -/

/-- C1: submitting a valid submission exactly once creates exactly one new
parent row and `len(concerns) + len(features)` new child rows — one
`ConcernRating` per concern entry and one `FeatureImportance` per feature
entry — and every child row's foreign key equals the parent's generated
identifier, which is obtained at flush before the commit and returned as
`response_id`. -/
theorem C1_submit_once (s : SurveySubmission) (now : Nat) (sess : Session) :
    (submit_survey s .noFault now sess).1 =
      .ok { status := "success", message := "Survey response recorded",
            response_id := sess.db.nextResponseId } ∧
    (submit_survey s .noFault now sess).2.db.survey_responses =
      sess.db.survey_responses ++ [buildParent s sess.db.nextResponseId now] ∧
    (buildParent s sess.db.nextResponseId now).id = sess.db.nextResponseId ∧
    (submit_survey s .noFault now sess).2.db.concern_ratings.length =
      sess.db.concern_ratings.length + s.concerns.length ∧
    (submit_survey s .noFault now sess).2.db.feature_importance.length =
      sess.db.feature_importance.length + s.features.length ∧
    ((submit_survey s .noFault now sess).2.db.concern_ratings.drop
        sess.db.concern_ratings.length).map
        (fun r => (r.response_id, r.concern_type, r.rating)) =
      s.concerns.map
        (fun c => (sess.db.nextResponseId, c.concern_type, c.rating)) ∧
    ((submit_survey s .noFault now sess).2.db.feature_importance.drop
        sess.db.feature_importance.length).map
        (fun r => (r.response_id, r.feature_type, r.rating)) =
      s.features.map
        (fun f => (sess.db.nextResponseId, f.feature_type, f.rating)) := by
  refine ⟨rfl, ?_, rfl, ?_, ?_, ?_, ?_⟩ <;>
    simp [submit_survey_noFault, commitDB, stageConcerns_length,
          stageFeatures_length, drop_length_append, stageConcerns_map,
          stageFeatures_map]

/-- C2: if the transactional write raises at any stage (flush, a child
insert that actually happens, or commit), the session's database after
the handler equals the one the request started with — zero new rows of
any kind — and the caller gets a 500 server error carrying the failure
cause. -/
theorem C2_failure_rollback (s : SurveySubmission) (fault : Fault) (now : Nat)
    (sess : Session)
    (h : fault.fires (s.concerns.length + s.features.length) = true) :
    (submit_survey s fault now sess).1 =
      .error { status_code := 500,
               detail := "Database error: " ++ fault.msg } ∧
    (submit_survey s fault now sess).2.db = sess.db := by
  cases fault with
  | noFault => simp [Fault.fires] at h
  | onFlush msg => exact ⟨rfl, rfl⟩
  | onAddChild k msg =>
    simp only [Fault.fires, decide_eq_true_eq] at h
    constructor <;> simp [submit_survey, submitTry, h, Fault.msg]
  | onCommit msg => exact ⟨rfl, rfl⟩

/-- Witness for C2: a concrete flush failure on the concrete scenario
submission rolls back to the starting database and surfaces the cause. -/
theorem C2_witness :
    (submit_survey exampleSubmission (.onFlush "boom") 0
        (SessionLocal DB.empty)).1 =
      .error { status_code := 500,
               detail := "Database error: " ++ (Fault.onFlush "boom").msg } ∧
    (submit_survey exampleSubmission (.onFlush "boom") 0
        (SessionLocal DB.empty)).2.db = (SessionLocal DB.empty).db :=
  C2_failure_rollback exampleSubmission (.onFlush "boom") 0
    (SessionLocal DB.empty) (by decide)

/-- C8: `GET /api/stats` mutates nothing: the session (and so all three
tables) is returned exactly unchanged, while the response carries the
parent-row count and the timestamp. -/
theorem C8_stats_no_mutation (now : Nat) (sess : Session) :
    (get_stats now sess).2 = sess ∧
    (get_stats now sess).2.db.survey_responses = sess.db.survey_responses ∧
    (get_stats now sess).2.db.concern_ratings = sess.db.concern_ratings ∧
    (get_stats now sess).2.db.feature_importance
      = sess.db.feature_importance ∧
    (get_stats now sess).1 =
      { total_responses := sess.db.survey_responses.length,
        timestamp := now } :=
  ⟨rfl, rfl, rfl, rfl, rfl⟩

/-- C9: on every request — submit with any body and any fault, or stats —
the per-request session is closed when the request completes, and no
transaction is left open on any exit path. -/
theorem C9_session_released (body : Json) (fault : Fault) (now later : Nat)
    (db : DB) :
    (get_db (post_api_submit body fault now) db).2.closed = true ∧
    (get_db (post_api_submit body fault now) db).2.inTransaction = false ∧
    (get_db (get_stats later) db).2.closed = true ∧
    (get_db (get_stats later) db).2.inTransaction = false := by
  refine ⟨rfl, ?_, rfl, rfl⟩
  cases hp : parseSubmission body with
  | none => simp [get_db, post_api_submit, hp, Session.close, SessionLocal]
  | some s =>
    rcases submit_survey_cases s fault now (SessionLocal db) with h | ⟨msg, h⟩ <;>
      simp [get_db, post_api_submit, hp, h, Session.close]

/-- C3: a request body that fails validation is rejected with the
client-class 422 error and the session (hence every table) is returned
unchanged — no write happens; and any body missing a required field, or
binding a declared field to a value of the wrong type, does fail
validation. -/
theorem C3_validation_rejects (body : Json) (fault : Fault) (now : Nat)
    (sess : Session) :
    (parseSubmission body = none →
       post_api_submit body fault now sess = (.error validationError, sess)) ∧
    (∀ fields k, body = .obj fields → k ∈ requiredFields →
       getField fields k = none → parseSubmission body = none) ∧
    (∀ fields k v, body = .obj fields → k ∈ submissionFields →
       getField fields k = some v → fieldTypeOk k v = false →
       parseSubmission body = none) := by
  refine ⟨?_, ?_, ?_⟩
  · intro h
    simp [post_api_submit, h]
  · rintro fields k rfl hk hnone
    cases hp : parseSubmission (.obj fields) with
    | none => rfl
    | some s =>
      have hs := parseSubmission_required_isSome hp k hk
      rw [hnone] at hs
      simp at hs
  · rintro fields k v rfl hk hv hbad
    cases hp : parseSubmission (.obj fields) with
    | none => rfl
    | some s =>
      have hs := parseSubmission_types_ok hp k hk v hv
      rw [hbad] at hs
      simp at hs

/-- Witness for C3: the empty object body is rejected with no state
change; a missing `q4_willingness` and a string-typed `q1_eligible`
each fail validation. -/
theorem C3_witness :
    post_api_submit (.obj []) .noFault 0 (SessionLocal DB.empty) =
      (.error validationError, SessionLocal DB.empty) ∧
    parseSubmission (.obj []) = none ∧
    parseSubmission (.obj [("q1_eligible", .str "yes")]) = none :=
  ⟨(C3_validation_rejects (.obj []) .noFault 0 (SessionLocal DB.empty)).1 rfl,
   (C3_validation_rejects (.obj []) .noFault 0 (SessionLocal DB.empty)).2.1
     [] "q4_willingness" rfl (by decide) rfl,
   (C3_validation_rejects (.obj [("q1_eligible", .str "yes")]) .noFault 0
       (SessionLocal DB.empty)).2.2
     [("q1_eligible", .str "yes")] "q1_eligible" (.str "yes") rfl
     (by decide) rfl rfl⟩

/-- C4: the stats count equals the number of stored parent rows, grows by
exactly 1 across a successful submission, and by exactly 0 across a
failed one (validation failure or transactional failure alike). -/
theorem C4_stats_counts (body : Json) (fault : Fault) (now later : Nat)
    (sess : Session) :
    (get_stats later sess).1.total_responses
      = sess.db.survey_responses.length ∧
    (∀ r, (post_api_submit body fault now sess).1 = .ok r →
       (get_stats later
           (post_api_submit body fault now sess).2).1.total_responses
         = (get_stats later sess).1.total_responses + 1) ∧
    (∀ e, (post_api_submit body fault now sess).1 = .error e →
       (get_stats later
           (post_api_submit body fault now sess).2).1.total_responses
         = (get_stats later sess).1.total_responses) := by
  refine ⟨rfl, ?_, ?_⟩
  · intro r hr
    cases hp : parseSubmission body with
    | none => simp [post_api_submit, hp] at hr
    | some s =>
      rcases submit_survey_cases s fault now sess with h | ⟨msg, h⟩
      · simp [post_api_submit, hp, h, get_stats, commitDB]
      · simp [post_api_submit, hp, h] at hr
  · intro e he
    cases hp : parseSubmission body with
    | none => simp [post_api_submit, hp, get_stats]
    | some s =>
      rcases submit_survey_cases s fault now sess with h | ⟨msg, h⟩
      · simp [post_api_submit, hp, h] at he
      · simp [post_api_submit, hp, h, get_stats]

/-- Witness for C4: on the empty store, the concrete scenario submission
raises the count from 0 to 1, and a rejected empty-object body leaves
it at 0. -/
theorem C4_witness :
    (get_stats 0
        (post_api_submit (.obj exampleFields) .noFault 0
          (SessionLocal DB.empty)).2).1.total_responses
      = (get_stats 0 (SessionLocal DB.empty)).1.total_responses + 1 ∧
    (get_stats 0
        (post_api_submit (.obj []) .noFault 0
          (SessionLocal DB.empty)).2).1.total_responses
      = (get_stats 0 (SessionLocal DB.empty)).1.total_responses :=
  ⟨(C4_stats_counts (.obj exampleFields) .noFault 0 0
      (SessionLocal DB.empty)).2.1
     { status := "success", message := "Survey response recorded",
       response_id := 1 } rfl,
   (C4_stats_counts (.obj []) .noFault 0 0 (SessionLocal DB.empty)).2.2
     validationError rfl⟩

/-- C7: neither validation nor storage enforces the 1–5 rating bounds or
the category-label vocabularies: a concern or feature entry with any
string label and any integer rating validates, and a successful
submission stores every entry's label and rating unchanged in the child
rows. -/
theorem C7_no_enforcement (label : String) (r : Int) (s : SurveySubmission)
    (now : Nat) (sess : Session) :
    parseConcern (.obj [("concern_type", .str label), ("rating", .int r)])
      = some { concern_type := label, rating := r } ∧
    parseFeature (.obj [("feature_type", .str label), ("rating", .int r)])
      = some { feature_type := label, rating := r } ∧
    ((submit_survey s .noFault now sess).2.db.concern_ratings.drop
        sess.db.concern_ratings.length).map
        (fun c => (c.concern_type, c.rating)) =
      s.concerns.map (fun c => (c.concern_type, c.rating)) ∧
    ((submit_survey s .noFault now sess).2.db.feature_importance.drop
        sess.db.feature_importance.length).map
        (fun f => (f.feature_type, f.rating)) =
      s.features.map (fun f => (f.feature_type, f.rating)) := by
  refine ⟨?_, ?_, ?_, ?_⟩
  · simp [parseConcern, reqStr, reqInt, getField]
  · simp [parseFeature, reqStr, reqInt, getField]
  · simp [submit_survey_noFault, commitDB, drop_length_append,
          stageConcerns_map_entry]
  · simp [submit_survey_noFault, commitDB, drop_length_append,
          stageFeatures_map_entry]

/-- The submission fields read by the `SurveyResponse(...)` constructor
call in `submit_survey` (src/main.py lines 97-113): the scalar top-level
fields of `SurveySubmission`, the two collections excluded. -/
def parentScalarFields : List String :=
  ["q1_eligible", "q2_participation", "q3_tech_comfort",
   "experimental_group", "q4_willingness", "q7_data_usage",
   "q8_question_usage", "q9_retention_time", "q10_server_location",
   "q11_open_response", "q12_age", "q13_gender", "q14_canton",
   "q15_language", "q16_education"]

/-- C5 counterexample: the parent record is built from the scalar
top-level fields of the submission, but there are 15 of them, not 14 as
the claim counts. -/
theorem C5_counterexample : parentScalarFields.length ≠ 14 := by decide

/-- C5 (amended): the handler constructs the parent record from exactly
the 15 scalar top-level fields of the validated submission, excluding
the two collections: two submissions that agree on those 15 fields (with
arbitrary, possibly different, collections) yield the same parent
record, and each of the 15 fields is recovered unchanged from the
parent record. -/
theorem C5_parent_scalar_fields (s s' : SurveySubmission) (id now : Nat)
    (h1 : s.q1_eligible = s'.q1_eligible)
    (h2 : s.q2_participation = s'.q2_participation)
    (h3 : s.q3_tech_comfort = s'.q3_tech_comfort)
    (h4 : s.experimental_group = s'.experimental_group)
    (h5 : s.q4_willingness = s'.q4_willingness)
    (h6 : s.q7_data_usage = s'.q7_data_usage)
    (h7 : s.q8_question_usage = s'.q8_question_usage)
    (h8 : s.q9_retention_time = s'.q9_retention_time)
    (h9 : s.q10_server_location = s'.q10_server_location)
    (h10 : s.q11_open_response = s'.q11_open_response)
    (h11 : s.q12_age = s'.q12_age)
    (h12 : s.q13_gender = s'.q13_gender)
    (h13 : s.q14_canton = s'.q14_canton)
    (h14 : s.q15_language = s'.q15_language)
    (h15 : s.q16_education = s'.q16_education) :
    parentScalarFields.length = 15 ∧
    buildParent s id now = buildParent s' id now ∧
    (buildParent s id now).q1_eligible = s.q1_eligible ∧
    (buildParent s id now).q2_participation = s.q2_participation ∧
    (buildParent s id now).q3_tech_comfort = s.q3_tech_comfort ∧
    (buildParent s id now).experimental_group = s.experimental_group ∧
    (buildParent s id now).q4_willingness = s.q4_willingness ∧
    (buildParent s id now).q7_data_usage = s.q7_data_usage ∧
    (buildParent s id now).q8_question_usage = s.q8_question_usage ∧
    (buildParent s id now).q9_retention_time = s.q9_retention_time ∧
    (buildParent s id now).q10_server_location = s.q10_server_location ∧
    (buildParent s id now).q11_open_response = s.q11_open_response ∧
    (buildParent s id now).q12_age = s.q12_age ∧
    (buildParent s id now).q13_gender = s.q13_gender ∧
    (buildParent s id now).q14_canton = s.q14_canton ∧
    (buildParent s id now).q15_language = s.q15_language ∧
    (buildParent s id now).q16_education = s.q16_education := by
  refine ⟨by decide, ?_, rfl, rfl, rfl, rfl, rfl, rfl, rfl, rfl, rfl, rfl,
          rfl, rfl, rfl, rfl, rfl⟩
  simp [buildParent, h1, h2, h3, h4, h5, h6, h7, h8, h9, h10, h11, h12,
        h13, h14, h15]

/-- Witness for C5: two concrete submissions that differ only in their
collections produce the identical parent record. -/
theorem C5_witness :
    buildParent exampleSubmission 1 0 =
      buildParent
        { exampleSubmission with concerns := [], features := [] } 1 0 :=
  (C5_parent_scalar_fields exampleSubmission
      { exampleSubmission with concerns := [], features := [] } 1 0
      rfl rfl rfl rfl rfl rfl rfl rfl rfl rfl rfl rfl rfl rfl rfl).2.1

/-- C6: with an otherwise-valid body, omitting `q11_open_response`
entirely and sending it as explicit `null` are both accepted, both
validate to an absent field, the stored parent row records the field as
absent, and no required field enjoys the same exemption: erasing any of
them makes validation fail. -/
theorem C6_q11_optional (fields : List (String × Json))
    (s : SurveySubmission) (now : Nat) (sess : Session)
    (h : parseSubmission (.obj fields) = some s) :
    parseSubmission (.obj (eraseKey "q11_open_response" fields))
      = some { s with q11_open_response := none } ∧
    parseSubmission (.obj (("q11_open_response", Json.null)
        :: eraseKey "q11_open_response" fields))
      = some { s with q11_open_response := none } ∧
    ((submit_survey { s with q11_open_response := none } .noFault now
        sess).2.db.survey_responses.getLast?).map
        (fun row => row.q11_open_response) = some none ∧
    (∀ k, k ∈ requiredFields →
       parseSubmission (.obj (eraseKey k fields)) = none) := by
  obtain ⟨H1, H2, H3, H4, H5, H6, H7, H8, H9, H10, H11, H12, H13, H14, H15,
          H16, H17⟩ := parseSubmission_obj_elim h
  refine ⟨?_, ?_, ?_, ?_⟩
  · exact parseSubmission_obj_intro
      ((reqBool_ext (getField_eraseKey_ne "q11_open_response" "q1_eligible"
        fields (by decide))).trans H1)
      ((reqInt_ext (getField_eraseKey_ne "q11_open_response"
        "q2_participation" fields (by decide))).trans H2)
      ((reqInt_ext (getField_eraseKey_ne "q11_open_response"
        "q3_tech_comfort" fields (by decide))).trans H3)
      ((reqStr_ext (getField_eraseKey_ne "q11_open_response"
        "experimental_group" fields (by decide))).trans H4)
      ((reqInt_ext (getField_eraseKey_ne "q11_open_response"
        "q4_willingness" fields (by decide))).trans H5)
      ((reqList_ext (getField_eraseKey_ne "q11_open_response" "concerns"
        fields (by decide))).trans H6)
      ((reqList_ext (getField_eraseKey_ne "q11_open_response" "features"
        fields (by decide))).trans H7)
      ((reqStr_ext (getField_eraseKey_ne "q11_open_response"
        "q7_data_usage" fields (by decide))).trans H8)
      ((reqStr_ext (getField_eraseKey_ne "q11_open_response"
        "q8_question_usage" fields (by decide))).trans H9)
      ((reqStr_ext (getField_eraseKey_ne "q11_open_response"
        "q9_retention_time" fields (by decide))).trans H10)
      ((reqStr_ext (getField_eraseKey_ne "q11_open_response"
        "q10_server_location" fields (by decide))).trans H11)
      (optStr_of_getField_none
        (getField_eraseKey_self "q11_open_response" fields))
      ((reqStr_ext (getField_eraseKey_ne "q11_open_response" "q12_age"
        fields (by decide))).trans H13)
      ((reqStr_ext (getField_eraseKey_ne "q11_open_response" "q13_gender"
        fields (by decide))).trans H14)
      ((reqStr_ext (getField_eraseKey_ne "q11_open_response" "q14_canton"
        fields (by decide))).trans H15)
      ((reqStr_ext (getField_eraseKey_ne "q11_open_response" "q15_language"
        fields (by decide))).trans H16)
      ((reqStr_ext (getField_eraseKey_ne "q11_open_response"
        "q16_education" fields (by decide))).trans H17)
  · exact parseSubmission_obj_intro
      ((reqBool_ext ((getField_cons_ne "q11_open_response" "q1_eligible"
        Json.null (eraseKey "q11_open_response" fields) (by decide)).trans
        (getField_eraseKey_ne "q11_open_response" "q1_eligible" fields
          (by decide)))).trans H1)
      ((reqInt_ext ((getField_cons_ne "q11_open_response"
        "q2_participation" Json.null (eraseKey "q11_open_response" fields)
        (by decide)).trans
        (getField_eraseKey_ne "q11_open_response" "q2_participation" fields
          (by decide)))).trans H2)
      ((reqInt_ext ((getField_cons_ne "q11_open_response"
        "q3_tech_comfort" Json.null (eraseKey "q11_open_response" fields)
        (by decide)).trans
        (getField_eraseKey_ne "q11_open_response" "q3_tech_comfort" fields
          (by decide)))).trans H3)
      ((reqStr_ext ((getField_cons_ne "q11_open_response"
        "experimental_group" Json.null (eraseKey "q11_open_response" fields)
        (by decide)).trans
        (getField_eraseKey_ne "q11_open_response" "experimental_group"
          fields (by decide)))).trans H4)
      ((reqInt_ext ((getField_cons_ne "q11_open_response"
        "q4_willingness" Json.null (eraseKey "q11_open_response" fields)
        (by decide)).trans
        (getField_eraseKey_ne "q11_open_response" "q4_willingness" fields
          (by decide)))).trans H5)
      ((reqList_ext ((getField_cons_ne "q11_open_response" "concerns"
        Json.null (eraseKey "q11_open_response" fields) (by decide)).trans
        (getField_eraseKey_ne "q11_open_response" "concerns" fields
          (by decide)))).trans H6)
      ((reqList_ext ((getField_cons_ne "q11_open_response" "features"
        Json.null (eraseKey "q11_open_response" fields) (by decide)).trans
        (getField_eraseKey_ne "q11_open_response" "features" fields
          (by decide)))).trans H7)
      ((reqStr_ext ((getField_cons_ne "q11_open_response" "q7_data_usage"
        Json.null (eraseKey "q11_open_response" fields) (by decide)).trans
        (getField_eraseKey_ne "q11_open_response" "q7_data_usage" fields
          (by decide)))).trans H8)
      ((reqStr_ext ((getField_cons_ne "q11_open_response"
        "q8_question_usage" Json.null (eraseKey "q11_open_response" fields)
        (by decide)).trans
        (getField_eraseKey_ne "q11_open_response" "q8_question_usage"
          fields (by decide)))).trans H9)
      ((reqStr_ext ((getField_cons_ne "q11_open_response"
        "q9_retention_time" Json.null (eraseKey "q11_open_response" fields)
        (by decide)).trans
        (getField_eraseKey_ne "q11_open_response" "q9_retention_time"
          fields (by decide)))).trans H10)
      ((reqStr_ext ((getField_cons_ne "q11_open_response"
        "q10_server_location" Json.null
        (eraseKey "q11_open_response" fields) (by decide)).trans
        (getField_eraseKey_ne "q11_open_response" "q10_server_location"
          fields (by decide)))).trans H11)
      (optStr_of_getField_null
        (getField_cons_self "q11_open_response" Json.null
          (eraseKey "q11_open_response" fields)))
      ((reqStr_ext ((getField_cons_ne "q11_open_response" "q12_age"
        Json.null (eraseKey "q11_open_response" fields) (by decide)).trans
        (getField_eraseKey_ne "q11_open_response" "q12_age" fields
          (by decide)))).trans H13)
      ((reqStr_ext ((getField_cons_ne "q11_open_response" "q13_gender"
        Json.null (eraseKey "q11_open_response" fields) (by decide)).trans
        (getField_eraseKey_ne "q11_open_response" "q13_gender" fields
          (by decide)))).trans H14)
      ((reqStr_ext ((getField_cons_ne "q11_open_response" "q14_canton"
        Json.null (eraseKey "q11_open_response" fields) (by decide)).trans
        (getField_eraseKey_ne "q11_open_response" "q14_canton" fields
          (by decide)))).trans H15)
      ((reqStr_ext ((getField_cons_ne "q11_open_response" "q15_language"
        Json.null (eraseKey "q11_open_response" fields) (by decide)).trans
        (getField_eraseKey_ne "q11_open_response" "q15_language" fields
          (by decide)))).trans H16)
      ((reqStr_ext ((getField_cons_ne "q11_open_response" "q16_education"
        Json.null (eraseKey "q11_open_response" fields) (by decide)).trans
        (getField_eraseKey_ne "q11_open_response" "q16_education" fields
          (by decide)))).trans H17)
  · simp [submit_survey_noFault, commitDB, getLast?_append_singleton,
          buildParent]
  · intro k hk
    cases hp : parseSubmission (.obj (eraseKey k fields)) with
    | none => rfl
    | some s2 =>
      have hs := parseSubmission_required_isSome hp k hk
      rw [getField_eraseKey_self] at hs
      simp at hs

/-- Witness for C6: on the concrete scenario body, erasing
`q11_open_response` and binding it to `null` both validate with the
field absent, and the stored parent row records it as absent. -/
theorem C6_witness :
    parseSubmission (.obj (eraseKey "q11_open_response" exampleFields))
      = some { exampleSubmission with q11_open_response := none } ∧
    parseSubmission (.obj (("q11_open_response", Json.null)
        :: eraseKey "q11_open_response" exampleFields))
      = some { exampleSubmission with q11_open_response := none } ∧
    ((submit_survey { exampleSubmission with q11_open_response := none }
        .noFault 0 (SessionLocal DB.empty)).2.db.survey_responses.getLast?).map
        (fun row => row.q11_open_response) = some none :=
  ⟨(C6_q11_optional exampleFields exampleSubmission 0
      (SessionLocal DB.empty) (by decide)).1,
   (C6_q11_optional exampleFields exampleSubmission 0
      (SessionLocal DB.empty) (by decide)).2.1,
   (C6_q11_optional exampleFields exampleSubmission 0
      (SessionLocal DB.empty) (by decide)).2.2.1⟩

/-- C10: an otherwise-valid body whose `concerns` and `features` are both
empty arrays passes validation (no minimum count is enforced), and a
submission with both collections empty is processed successfully:
exactly one new parent row, zero new child rows, and the success
response carrying the generated identifier. -/
theorem C10_empty_collections (fields : List (String × Json))
    (s : SurveySubmission) (now : Nat) (sess : Session)
    (h : parseSubmission (.obj fields) = some s) :
    parseSubmission (.obj (("concerns", Json.arr [])
        :: ("features", Json.arr [])
        :: eraseKey "concerns" (eraseKey "features" fields)))
      = some { s with concerns := [], features := [] } ∧
    (∀ s2 : SurveySubmission, s2.concerns = [] → s2.features = [] →
       (submit_survey s2 .noFault now sess).1 =
         .ok { status := "success", message := "Survey response recorded",
               response_id := sess.db.nextResponseId } ∧
       (submit_survey s2 .noFault now sess).2.db.survey_responses =
         sess.db.survey_responses
           ++ [buildParent s2 sess.db.nextResponseId now] ∧
       (submit_survey s2 .noFault now sess).2.db.concern_ratings =
         sess.db.concern_ratings ∧
       (submit_survey s2 .noFault now sess).2.db.feature_importance =
         sess.db.feature_importance) := by
  obtain ⟨H1, H2, H3, H4, H5, H6, H7, H8, H9, H10, H11, H12, H13, H14, H15,
          H16, H17⟩ := parseSubmission_obj_elim h
  have base : ∀ k : String, k ≠ "concerns" → k ≠ "features" →
      getField (("concerns", Json.arr []) :: ("features", Json.arr [])
        :: eraseKey "concerns" (eraseKey "features" fields)) k
        = getField fields k := by
    intro k hc hf
    rw [getField_cons_ne "concerns" k (Json.arr []) _ fun he => hc he.symm,
        getField_cons_ne "features" k (Json.arr []) _ fun he => hf he.symm,
        getField_eraseKey_ne "concerns" k
          (eraseKey "features" fields) hc,
        getField_eraseKey_ne "features" k fields hf]
  constructor
  · exact parseSubmission_obj_intro
      ((reqBool_ext (base "q1_eligible" (by decide) (by decide))).trans H1)
      ((reqInt_ext (base "q2_participation" (by decide)
        (by decide))).trans H2)
      ((reqInt_ext (base "q3_tech_comfort" (by decide) (by decide))).trans H3)
      ((reqStr_ext (base "experimental_group" (by decide)
        (by decide))).trans H4)
      ((reqInt_ext (base "q4_willingness" (by decide) (by decide))).trans H5)
      (by simp [reqList, getField, parseAll])
      (by simp [reqList, getField, parseAll])
      ((reqStr_ext (base "q7_data_usage" (by decide) (by decide))).trans H8)
      ((reqStr_ext (base "q8_question_usage" (by decide)
        (by decide))).trans H9)
      ((reqStr_ext (base "q9_retention_time" (by decide)
        (by decide))).trans H10)
      ((reqStr_ext (base "q10_server_location" (by decide)
        (by decide))).trans H11)
      ((optStr_ext (base "q11_open_response" (by decide)
        (by decide))).trans H12)
      ((reqStr_ext (base "q12_age" (by decide) (by decide))).trans H13)
      ((reqStr_ext (base "q13_gender" (by decide) (by decide))).trans H14)
      ((reqStr_ext (base "q14_canton" (by decide) (by decide))).trans H15)
      ((reqStr_ext (base "q15_language" (by decide) (by decide))).trans H16)
      ((reqStr_ext (base "q16_education" (by decide) (by decide))).trans H17)
  · intro s2 e1 e2
    refine ⟨rfl, ?_, ?_, ?_⟩ <;>
      simp [submit_survey_noFault, commitDB, e1, e2, stageConcerns,
            stageFeatures]

/-- Witness for C10: the concrete scenario body with both collections
emptied validates, and the resulting submission succeeds with the
generated identifier `1` on the empty store. -/
theorem C10_witness :
    parseSubmission (.obj (("concerns", Json.arr [])
        :: ("features", Json.arr [])
        :: eraseKey "concerns" (eraseKey "features" exampleFields)))
      = some { exampleSubmission with concerns := [], features := [] } ∧
    (submit_survey { exampleSubmission with concerns := [], features := [] }
        .noFault 0 (SessionLocal DB.empty)).1 =
      .ok { status := "success", message := "Survey response recorded",
            response_id := (SessionLocal DB.empty).db.nextResponseId } :=
  ⟨(C10_empty_collections exampleFields exampleSubmission 0
      (SessionLocal DB.empty) (by decide)).1,
   ((C10_empty_collections exampleFields exampleSubmission 0
       (SessionLocal DB.empty) (by decide)).2
     { exampleSubmission with concerns := [], features := [] } rfl rfl).1⟩

end SurveyBackend
